import Mathlib

/-
Verification of the announcement router (src/backend/routers/announcements.py).

The store (`announcements_collection`) is modelled as a `List Announcement` in
natural (insertion) order; `find({})` returns that list, `insert_one` appends,
`update_one`/`delete_one`/`find_one` act on the first document matching the id.
The teacher collection is a `List String` of usernames.  `datetime.fromisoformat`
is abstracted as a parse function returning `none` for the exception branch;
the current instant is a parameter.

Parsed datetimes appear in two models.  The mutation path (create, update,
delete) only checks whether a date parses and never compares two datetimes,
so there a timestamp is a plain `Int`.  The read path does compare datetimes,
and Python's datetime comparison is partial: comparing an offset-naive value
(e.g. the parse of "2024-01-01") with an offset-aware one (e.g. the parse of
"2024-01-01T00:00:00+00:00", or `datetime.now(timezone.utc)`) raises an
uncaught TypeError, which FastAPI surfaces as a 500 and no listing at all.
The listing endpoints therefore have a refined model over `PyDateTime`
(awareness flag plus instant) in which that error path is explicit; the
simpler total-order versions (`get_active_announcements`,
`get_all_announcements` over `Int`/`WithTop Int`) idealize the comparisons as
total and are kept only for the determinism/purity result, which is
insensitive to the error path.  `datetime.max`, the sort sentinel of
`get_all_announcements`, is offset-naive and equals the parse of
"9999-12-31T23:59:59.999999".  Python's stable `list.sort` is
`List.mergeSort`, which is stable.
-/

deriving instance DecidableEq for Except

namespace Announcements

/-- A raised `HTTPException`: status code plus detail string. -/
structure HTTPError where
  status : Nat
  detail : String
deriving DecidableEq

/-- A stored announcement document.  `oid` is the Mongo `_id` (an ObjectId,
kept as its 24-char hex string).  `start_date` and `expiration_date` are the
optional ISO-8601 text fields; `a.get(...)` returning `None` is `none`. -/
structure Announcement where
  oid : String
  title : String
  message : String
  start_date : Option String
  expiration_date : Option String
  created_at : String
deriving DecidableEq

/-- The wire form produced by `_serialize`: the document without `_id`, plus
`id = str(_id)` (identity on our string-modelled ObjectId). -/
structure Serialized where
  title : String
  message : String
  start_date : Option String
  expiration_date : Option String
  created_at : String
  id : String
deriving DecidableEq

/-- `_serialize(doc)`. -/
def serialize (a : Announcement) : Serialized :=
  { title := a.title, message := a.message, start_date := a.start_date,
    expiration_date := a.expiration_date, created_at := a.created_at,
    id := a.oid }

/-- `_ensure_teacher(username)`: `if not username` (None or empty string) gives
401 "Authentication required"; an unknown username gives 401 "Invalid teacher
credentials"; a known one passes (`none` = no exception). -/
def ensure_teacher (teachers : List String) : Option String → Option HTTPError
  | none => some ⟨401, "Authentication required"⟩
  | some u =>
    if u = "" then some ⟨401, "Authentication required"⟩
    else if teachers.contains u then none
    else some ⟨401, "Invalid teacher credentials"⟩

/-- `datetime.fromisoformat(s) if s else None`, wrapped in `try/except` that
yields `None`: a missing or empty string short-circuits to `none`, otherwise
the parse result (with `none` for the exception branch). -/
def parseIfTruthy (parse : String → Option Int) : Option String → Option Int
  | none => none
  | some s => if s = "" then none else parse s

/-- The filter condition of `get_active_announcements`:
`exp_dt and exp_dt >= now and (start_dt is None or start_dt <= now)`,
idealizing the datetime comparisons as total (the real comparison raises
TypeError on a naive/aware mix; see `activeKeyPy` for the faithful model). -/
def isActiveDoc (parse : String → Option Int) (now : Int) (a : Announcement) : Bool :=
  match parseIfTruthy parse a.expiration_date with
  | none => false
  | some expDt =>
    decide (now ≤ expDt) &&
      (match parseIfTruthy parse a.start_date with
       | none => true
       | some startDt => decide (startDt ≤ now))

/-- `GET /announcements`: filter to active documents, pair each with its parsed
expiration, stable-sort ascending by that key, then serialize.  Total-order
idealization kept for the purity/determinism claim only: it cannot abort,
whereas the endpoint raises TypeError on naive/aware comparison mixes — the
faithful model is `get_active_announcements_py` below. -/
def get_active_announcements (parse : String → Option Int) (now : Int)
    (store : List Announcement) : List Serialized :=
  let tmp : List (Int × Announcement) :=
    (store.filter (isActiveDoc parse now)).map
      (fun a => ((parseIfTruthy parse a.expiration_date).getD 0, a))
  (tmp.mergeSort (fun p q => decide (p.1 ≤ q.1))).map (fun p => serialize p.2)

/-- The sort key of `get_all_announcements`:
`datetime.fromisoformat(a.get("expiration_date"))` with `except: datetime.max`.
A missing field (`fromisoformat(None)` raises) or a failed parse both give the
sentinel, idealized here as `⊤` above every parsed value.  The real
`datetime.max` is an ordinary offset-naive datetime — incomparable with aware
parses and equal to the parse of "9999-12-31T23:59:59.999999"; the faithful
key is `expKeyAllPy` below. -/
def expKeyAll (parse : String → Option Int) (a : Announcement) : WithTop Int :=
  match a.expiration_date with
  | none => ⊤
  | some s =>
    match parse s with
    | none => ⊤
    | some v => (v : WithTop Int)

/-- `GET /announcements/all`: teacher auth, then every document paired with its
(sentinel-defaulted) parsed expiration, stable-sorted ascending, serialized.
Total-order idealization kept for the purity/determinism claim only: the
endpoint's sort raises TypeError when naive and aware keys meet — the
faithful model is `get_all_announcements_py` below. -/
def get_all_announcements (teachers : List String) (teacher_username : Option String)
    (parse : String → Option Int) (store : List Announcement) :
    Except HTTPError (List Serialized) :=
  match ensure_teacher teachers teacher_username with
  | some e => .error e
  | none =>
    let tmp : List (WithTop Int × Announcement) :=
      store.map (fun a => (expKeyAll parse a, a))
    .ok ((tmp.mergeSort (fun p q => decide (p.1 ≤ q.1))).map (fun p => serialize p.2))

/-- `POST /announcements`: auth; `if not expiration_date` → 400 required;
`fromisoformat(expiration_date)` then, `if start_date`, `fromisoformat(start_date)`,
a failure of either → 400 invalid format; otherwise the document (with
`created_at` stamped) is inserted and echoed with its new id.  `newId` is the
store-assigned ObjectId and `nowIso` the `datetime.now(timezone.utc).isoformat()`
stamp, both injected. -/
def create_announcement (parse : String → Option Int) (teachers : List String)
    (title message expiration_date : String) (start_date : Option String)
    (teacher_username : Option String) (newId nowIso : String)
    (store : List Announcement) : List Announcement × Except HTTPError Serialized :=
  match ensure_teacher teachers teacher_username with
  | some e => (store, .error e)
  | none =>
    if expiration_date = "" then
      (store, .error ⟨400, "expiration_date is required"⟩)
    else
      match parse expiration_date with
      | none =>
        (store, .error ⟨400, "Invalid date format. Use ISO format (YYYY-MM-DD or full ISO)"⟩)
      | some _ =>
        let startBad : Bool :=
          match start_date with
          | none => false
          | some s => if s = "" then false else (parse s).isNone
        if startBad then
          (store, .error ⟨400, "Invalid date format. Use ISO format (YYYY-MM-DD or full ISO)"⟩)
        else
          let doc : Announcement :=
            { oid := newId, title := title, message := message,
              start_date := start_date, expiration_date := some expiration_date,
              created_at := nowIso }
          (store ++ [doc], .ok (serialize doc))

/-- Hex-digit test for ObjectId syntax. -/
def isHexChar (c : Char) : Bool :=
  c.isDigit || ('a' ≤ c && c ≤ 'f') || ('A' ≤ c && c ≤ 'F')

/-- Lower-case one hex digit (ObjectId's canonical form). -/
def hexLower (c : Char) : Char :=
  if 'A' ≤ c ∧ c ≤ 'F' then Char.ofNat (c.toNat + 32) else c

/-- `bson.ObjectId(id)`: accepts exactly a 24-character hex string (normalised
to lower case, ObjectId equality being on the underlying bytes), raises
otherwise. -/
def parseObjectId (s : String) : Option String :=
  if s.length = 24 && s.toList.all isHexChar then
    some (String.mk (s.toList.map hexLower))
  else none

/-- The `$set` document built by `update_announcement`: each key present only
when the corresponding argument was supplied. -/
structure UpdateFields where
  title : Option String
  message : Option String
  expiration_date : Option String
  start_date : Option String
deriving DecidableEq

/-- Mongo `$set` of the built update document on one stored document: supplied
fields overwrite, everything else (including `_id` and `created_at`) is kept. -/
def setFields (u : UpdateFields) (a : Announcement) : Announcement :=
  { a with
    title := u.title.getD a.title
    message := u.message.getD a.message
    expiration_date := u.expiration_date.or a.expiration_date
    start_date := u.start_date.or a.start_date }

/-- The date-validation errors of `update_announcement`, in source order: a
supplied `expiration_date` is parsed first (400 on failure), then a supplied
`start_date` (400 on failure). -/
def dateFieldError (parse : String → Option Int)
    (expiration_date start_date : Option String) : Option HTTPError :=
  if expiration_date.any (fun e => (parse e).isNone) then
    some ⟨400, "Invalid expiration_date format"⟩
  else if start_date.any (fun s => (parse s).isNone) then
    some ⟨400, "Invalid start_date format"⟩
  else none

/-- `update_one({"_id": oid}, {"$set": u})`: rewrite the first document whose
id matches, and report the matched count. -/
def updateFirst (oid : String) (u : UpdateFields) :
    List Announcement → List Announcement × Nat
  | [] => ([], 0)
  | a :: rest =>
    if a.oid = oid then (setFields u a :: rest, 1)
    else
      let r := updateFirst oid u rest
      (a :: r.1, r.2)

/-- `find_one({"_id": oid})`: first document whose id matches. -/
def findOne (oid : String) (store : List Announcement) : Option Announcement :=
  store.find? (fun a => a.oid == oid)

/-- `PUT /announcements/{id}`: auth; `ObjectId(id)` (400 "Invalid id" on bad
syntax); build the update document, validating any supplied date (400); reject
an empty update document (400 "No fields to update"); `update_one` with 404
when nothing matched; finally re-fetch and serialize the updated document.
The unreachable re-fetch miss (the document was just matched) is a 500. -/
def update_announcement (parse : String → Option Int) (teachers : List String)
    (id : String) (title message expiration_date start_date : Option String)
    (teacher_username : Option String) (store : List Announcement) :
    List Announcement × Except HTTPError Serialized :=
  match ensure_teacher teachers teacher_username with
  | some e => (store, .error e)
  | none =>
    match parseObjectId id with
    | none => (store, .error ⟨400, "Invalid id"⟩)
    | some oid =>
      match dateFieldError parse expiration_date start_date with
      | some e => (store, .error e)
      | none =>
        if title = none ∧ message = none ∧ expiration_date = none ∧ start_date = none then
          (store, .error ⟨400, "No fields to update"⟩)
        else
          let u : UpdateFields := ⟨title, message, expiration_date, start_date⟩
          let r := updateFirst oid u store
          if r.2 = 0 then
            (r.1, .error ⟨404, "Announcement not found"⟩)
          else
            match findOne oid r.1 with
            | none => (r.1, .error ⟨500, "Internal Server Error"⟩)
            | some a2 => (r.1, .ok (serialize a2))

/-- `delete_one({"_id": oid})`: remove the first document whose id matches,
reporting the deleted count. -/
def deleteFirst (oid : String) :
    List Announcement → List Announcement × Nat
  | [] => ([], 0)
  | a :: rest =>
    if a.oid = oid then (rest, 1)
    else
      let r := deleteFirst oid rest
      (a :: r.1, r.2)

/-- `DELETE /announcements/{id}`: auth; `ObjectId(id)` (400 "Invalid id");
`delete_one` with 404 when nothing was deleted, else the confirmation. -/
def delete_announcement (teachers : List String) (id : String)
    (teacher_username : Option String) (store : List Announcement) :
    List Announcement × Except HTTPError String :=
  match ensure_teacher teachers teacher_username with
  | some e => (store, .error e)
  | none =>
    match parseObjectId id with
    | none => (store, .error ⟨400, "Invalid id"⟩)
    | some oid =>
      let r := deleteFirst oid store
      if r.2 = 0 then (r.1, .error ⟨404, "Announcement not found"⟩)
      else (r.1, .ok "Deleted")

/-- Concrete ISO-8601 parse table used for witnesses (a finite restriction of
`datetime.fromisoformat`: these strings parse to these UTC timestamps, all
other strings raise). -/
def demoParse : String → Option Int
  | "2024-01-01T00:00:00+00:00" => some 1704067200
  | "2024-06-01T00:00:00+00:00" => some 1717200000
  | "2099-01-01T00:00:00+00:00" => some 4070908800
  | "2099-06-01T00:00:00+00:00" => some 4083955200
  | _ => none

/-- Concrete record used in witnesses: far-future expiration, no start date. -/
def annA : Announcement :=
  { oid := "aaaaaaaaaaaaaaaaaaaaaaaa", title := "Welcome", message := "hello",
    start_date := none, expiration_date := some "2099-01-01T00:00:00+00:00",
    created_at := "2024-01-01T00:00:00+00:00" }

/-- Concrete record with the same expiration as `annA` (stability witness). -/
def annB : Announcement :=
  { oid := "bbbbbbbbbbbbbbbbbbbbbbbb", title := "Second", message := "world",
    start_date := none, expiration_date := some "2099-01-01T00:00:00+00:00",
    created_at := "2024-01-02T00:00:00+00:00" }

/-- Concrete record whose expiration date does not parse. -/
def annBad : Announcement :=
  { oid := "cccccccccccccccccccccccc", title := "Corrupt", message := "oops",
    start_date := none, expiration_date := some "not-a-date",
    created_at := "2024-01-03T00:00:00+00:00" }

/-- A syntactically valid ObjectId string (24 hex characters). -/
def demoOid : String := "0123456789abcdef01234567"

/-- A parsed Python datetime: its offset-awareness flag and the instant it
denotes (UTC timestamp for aware values, wall-clock seconds for naive ones).
Python's datetime order is partial: two values compare only when both are
aware or both are naive; a mixed comparison raises TypeError. -/
structure PyDateTime where
  aware : Bool
  ts : Int
deriving DecidableEq

/-- Python `d <= e` on datetimes: `none` models the TypeError raised on a
naive/aware mix, otherwise the instant comparison (within one awareness class
the order is the instant order). -/
def pyLE (d e : PyDateTime) : Option Bool :=
  if d.aware = e.aware then some (decide (d.ts ≤ e.ts)) else none

/-- `datetime.max`: an ordinary offset-naive datetime, equal to the (naive)
parse of "9999-12-31T23:59:59.999999" (Unix wall-clock seconds, microseconds
dropped as they never break a tie against themselves). -/
def pyDatetimeMax : PyDateTime := ⟨false, 253402300799⟩

/-- The uncaught-TypeError path: FastAPI turns the exception escaping the
route handler into a 500 response, and no listing is produced. -/
def typeErrorResponse : HTTPError := ⟨500, "Internal Server Error"⟩

/-- `datetime.fromisoformat(s) if s else None` under try/except, in the
refined datetime model. -/
def parseIfTruthyPy (parse : String → Option PyDateTime) :
    Option String → Option PyDateTime
  | none => none
  | some s => if s = "" then none else parse s

/-- One record's evaluation inside `get_active_announcements`'s loop, with
Python's left-to-right short-circuit order:
`exp_dt and exp_dt >= now and (start_dt is None or start_dt <= now)`.
Returns the sort key (the parsed expiration) when the record is retained,
`none` when filtered out, and the TypeError 500 when a comparison mixes a
naive value with the aware `now`. -/
def activeKeyPy (now : PyDateTime) (expDt startDt : Option PyDateTime) :
    Except HTTPError (Option PyDateTime) :=
  match expDt with
  | none => .ok none
  | some d =>
    match pyLE now d with
    | none => .error typeErrorResponse
    | some false => .ok none
    | some true =>
      match startDt with
      | none => .ok (some d)
      | some s =>
        match pyLE s now with
        | none => .error typeErrorResponse
        | some true => .ok (some d)
        | some false => .ok none

/-- The filter loop of `get_active_announcements`: builds `tmp` (key–record
pairs) in store order, aborting at the first TypeError. -/
def collectActive (parse : String → Option PyDateTime) (now : PyDateTime) :
    List Announcement → Except HTTPError (List (PyDateTime × Announcement))
  | [] => .ok []
  | a :: rest =>
    match activeKeyPy now (parseIfTruthyPy parse a.expiration_date)
        (parseIfTruthyPy parse a.start_date) with
    | .error e => .error e
    | .ok none => collectActive parse now rest
    | .ok (some d) =>
      match collectActive parse now rest with
      | .error e => .error e
      | .ok tmp => .ok ((d, a) :: tmp)

/-- `GET /announcements` in the refined model.  Every key in `tmp` was
compared successfully against `now`, so all keys share `now`'s awareness and
the sort's comparisons never raise; within one awareness class Python orders
datetimes by instant, which is the `ts` comparator used here (stable, as
`list.sort` is). -/
def get_active_announcements_py (parse : String → Option PyDateTime)
    (now : PyDateTime) (store : List Announcement) :
    Except HTTPError (List Serialized) :=
  match collectActive parse now store with
  | .error e => .error e
  | .ok tmp =>
    .ok ((tmp.mergeSort fun p q => decide (p.1.ts ≤ q.1.ts)).map
      fun p => serialize p.2)

/-- The sort key of `get_all_announcements` in the refined model: any
exception (missing field, unparseable text) yields the offset-naive
`datetime.max`. -/
def expKeyAllPy (parse : String → Option PyDateTime) (a : Announcement) :
    PyDateTime :=
  match a.expiration_date with
  | none => pyDatetimeMax
  | some s =>
    match parse s with
    | none => pyDatetimeMax
    | some d => d

/-- `GET /announcements/all` in the refined model.  A comparison sort must
relate every adjacent pair of its output, so on a key list containing both a
naive and an aware datetime some naive/aware comparison is unavoidable and
`tmp.sort` raises TypeError at the first such comparison — the endpoint
aborts with the 500.  On an awareness-homogeneous key list every comparison
is defined and is the instant order, and the stable sort completes. -/
def get_all_announcements_py (teachers : List String)
    (teacher_username : Option String) (parse : String → Option PyDateTime)
    (store : List Announcement) : Except HTTPError (List Serialized) :=
  match ensure_teacher teachers teacher_username with
  | some e => .error e
  | none =>
    let tmp : List (PyDateTime × Announcement) :=
      store.map fun a => (expKeyAllPy parse a, a)
    if (tmp.any fun p => p.1.aware) && (tmp.any fun p => !p.1.aware) then
      .error typeErrorResponse
    else
      .ok ((tmp.mergeSort fun p q => decide (p.1.ts ≤ q.1.ts)).map
        fun p => serialize p.2)

/-- Concrete parse table for the refined model: a finite restriction of
`datetime.fromisoformat`.  Offset-suffixed strings parse offset-aware,
date-only strings parse offset-naive (both formats are accepted by the create
endpoint), everything else raises. -/
def demoParsePy : String → Option PyDateTime
  | "2024-01-01T00:00:00+00:00" => some ⟨true, 1704067200⟩
  | "2024-06-01T00:00:00+00:00" => some ⟨true, 1717200000⟩
  | "2099-01-01T00:00:00+00:00" => some ⟨true, 4070908800⟩
  | "2099-06-01T00:00:00+00:00" => some ⟨true, 4083955200⟩
  | "2099-01-01" => some ⟨false, 4070908800⟩
  | "9999-12-31T23:59:59.999999" => some ⟨false, 253402300799⟩
  | _ => none

/-- `datetime.now(timezone.utc)` at the reference instant 2024-06-01T00:00:00Z:
always offset-aware. -/
def demoNow : PyDateTime := ⟨true, 1717200000⟩

/-- Concrete record whose expiration date is a date-only ISO string — the
format the create endpoint's own error message recommends — parsing
offset-naive. -/
def annNaive : Announcement :=
  { oid := "ffffffffffffffffffffffff", title := "Naive", message := "date-only",
    start_date := none, expiration_date := some "2099-01-01",
    created_at := "2024-01-04T00:00:00+00:00" }

/-- Counterexample to C4 as stated: a create request whose `start_date` is
supplied as the empty string — which does not parse as ISO-8601 — is not
rejected: `if start_date:` treats the empty string like an absent value, so
the record is inserted and the store changes. -/
theorem C4_counterexample :
    demoParse "" = none ∧
    create_announcement demoParse ["mrs_t"] "T" "M" "2099-01-01T00:00:00+00:00"
        (some "") (some "mrs_t") "dddddddddddddddddddddddd"
        "2024-06-01T00:00:00+00:00" [] =
      ([{ oid := "dddddddddddddddddddddddd", title := "T", message := "M",
          start_date := some "", expiration_date := some "2099-01-01T00:00:00+00:00",
          created_at := "2024-06-01T00:00:00+00:00" }],
       .ok { title := "T", message := "M", start_date := some "",
             expiration_date := some "2099-01-01T00:00:00+00:00",
             created_at := "2024-06-01T00:00:00+00:00",
             id := "dddddddddddddddddddddddd" }) := by
  constructor
  · rfl
  · decide

/-- C4 amended: a create whose `expiration_date` does not parse (the empty
string included), or whose `start_date` is supplied non-empty and does not
parse, is rejected with a 400 validation error and the store is unchanged.
(A `start_date` supplied as the empty string is treated as absent.) -/
theorem C4_create_rejects_bad_dates (parse : String → Option Int)
    (teachers : List String) (title message expiration_date : String)
    (start_date : Option String) (tu : Option String) (newId nowIso : String)
    (store : List Announcement)
    (hauth : ensure_teacher teachers tu = none)
    (hbad : parse expiration_date = none ∨
            ∃ s, start_date = some s ∧ s ≠ "" ∧ parse s = none) :
    ∃ err : HTTPError, err.status = 400 ∧
      create_announcement parse teachers title message expiration_date start_date
        tu newId nowIso store = (store, .error err) := by
  simp only [create_announcement, hauth]
  by_cases hE : expiration_date = ""
  · exact ⟨⟨400, "expiration_date is required"⟩, rfl, by simp [hE]⟩
  · rcases hpe : parse expiration_date with _ | t
    · exact ⟨⟨400, "Invalid date format. Use ISO format (YYYY-MM-DD or full ISO)"⟩,
        rfl, by simp [hE, hpe]⟩
    · rcases hbad with h | ⟨s, hs, hsne, hps⟩
      · rw [h] at hpe
        cases hpe
      · refine ⟨⟨400, "Invalid date format. Use ISO format (YYYY-MM-DD or full ISO)"⟩,
          rfl, ?_⟩
        simp [hE, hpe, hs, hsne, hps]

/-- Witness for the amended C4 at a concrete request with an unparseable
expiration date. -/
theorem C4_witness :
    ensure_teacher ["mrs_t"] (some "mrs_t") = none ∧
    demoParse "not-a-date" = none ∧
    ∃ err : HTTPError, err.status = 400 ∧
      create_announcement demoParse ["mrs_t"] "T" "M" "not-a-date" none
        (some "mrs_t") "dddddddddddddddddddddddd" "2024-06-01T00:00:00+00:00"
        [annA] = ([annA], .error err) :=
  ⟨by decide, by decide,
   C4_create_rejects_bad_dates demoParse ["mrs_t"] "T" "M" "not-a-date" none
     (some "mrs_t") "dddddddddddddddddddddddd" "2024-06-01T00:00:00+00:00" [annA]
     (by decide) (Or.inl (by decide))⟩

theorem updateFirst_of_not_mem (oid : String) (u : UpdateFields)
    (l : List Announcement) (h : ∀ a ∈ l, a.oid ≠ oid) :
    updateFirst oid u l = (l, 0) := by
  induction l with
  | nil => rfl
  | cons a rest ih =>
    have ha : ¬ a.oid = oid := h a (List.mem_cons_self a rest)
    simp [updateFirst, ha, ih (fun b hb => h b (List.mem_cons_of_mem a hb))]

theorem deleteFirst_of_not_mem (oid : String)
    (l : List Announcement) (h : ∀ a ∈ l, a.oid ≠ oid) :
    deleteFirst oid l = (l, 0) := by
  induction l with
  | nil => rfl
  | cons a rest ih =>
    have ha : ¬ a.oid = oid := h a (List.mem_cons_self a rest)
    simp [deleteFirst, ha, ih (fun b hb => h b (List.mem_cons_of_mem a hb))]

theorem updateFirst_append (oid : String) (u : UpdateFields)
    (pre post : List Announcement) (a : Announcement)
    (hp : ∀ b ∈ pre, b.oid ≠ oid) (ha : a.oid = oid) :
    updateFirst oid u (pre ++ a :: post) = (pre ++ setFields u a :: post, 1) := by
  induction pre with
  | nil => simp [updateFirst, ha]
  | cons b rest ih =>
    have hb : ¬ b.oid = oid := hp b (List.mem_cons_self b rest)
    simp [updateFirst, hb, ih (fun c hc => hp c (List.mem_cons_of_mem b hc))]

theorem findOne_append (oid : String) (pre post : List Announcement)
    (b : Announcement) (hp : ∀ c ∈ pre, c.oid ≠ oid) (hb : b.oid = oid) :
    findOne oid (pre ++ b :: post) = some b := by
  induction pre with
  | nil =>
    simp only [List.nil_append, findOne]
    rw [List.find?_cons_of_pos]
    simp [hb]
  | cons c rest ih =>
    have hc : ¬ c.oid = oid := hp c (List.mem_cons_self c rest)
    simp only [List.cons_append, findOne]
    rw [List.find?_cons_of_neg]
    · exact ih (fun d hd => hp d (List.mem_cons_of_mem c hd))
    · simp [hc]

/-- C5: with a passing credential and a well-formed id, an update supplying
zero fields is rejected with the 400 "No fields to update" validation error,
and an update supplying an unparseable date field is rejected with a 400
validation error; in both cases the store is left untouched. -/
theorem C5_update_rejects_empty_and_bad_dates (parse : String → Option Int)
    (teachers : List String) (id oid : String) (tu : Option String)
    (store : List Announcement)
    (hauth : ensure_teacher teachers tu = none)
    (hid : parseObjectId id = some oid) :
    (update_announcement parse teachers id none none none none tu store =
      (store, .error ⟨400, "No fields to update"⟩)) ∧
    (∀ title message expiration_date start_date : Option String,
      (∃ e, expiration_date = some e ∧ parse e = none) ∨
        (∃ s, start_date = some s ∧ parse s = none) →
      ∃ err : HTTPError, err.status = 400 ∧
        update_announcement parse teachers id title message expiration_date start_date
          tu store = (store, .error err)) := by
  constructor
  · simp [update_announcement, hauth, hid, dateFieldError]
  · intro title message expiration_date start_date hbad
    rcases hbad with ⟨e, he, hpe⟩ | ⟨s, hs, hps⟩
    · exact ⟨⟨400, "Invalid expiration_date format"⟩, rfl, by
        simp [update_announcement, hauth, hid, dateFieldError, he, hpe]⟩
    · by_cases hexp : (expiration_date.any fun e => (parse e).isNone) = true
      · exact ⟨⟨400, "Invalid expiration_date format"⟩, rfl, by
          simp [update_announcement, hauth, hid, dateFieldError, hexp]⟩
      · exact ⟨⟨400, "Invalid start_date format"⟩, rfl, by
          simp [update_announcement, hauth, hid, dateFieldError, hexp, hs, hps]⟩

/-- Witness for C5 at a concrete request. -/
theorem C5_witness :
    ensure_teacher ["mrs_t"] (some "mrs_t") = none ∧
    parseObjectId demoOid = some demoOid ∧
    update_announcement demoParse ["mrs_t"] demoOid none none none none
      (some "mrs_t") [annA] = ([annA], .error ⟨400, "No fields to update"⟩) ∧
    ∃ err : HTTPError, err.status = 400 ∧
      update_announcement demoParse ["mrs_t"] demoOid none none (some "not-a-date")
        none (some "mrs_t") [annA] = ([annA], .error err) :=
  ⟨by decide, by decide,
   (C5_update_rejects_empty_and_bad_dates demoParse ["mrs_t"] demoOid demoOid
     (some "mrs_t") [annA] (by decide) (by decide)).1,
   (C5_update_rejects_empty_and_bad_dates demoParse ["mrs_t"] demoOid demoOid
     (some "mrs_t") [annA] (by decide) (by decide)).2 none none (some "not-a-date")
     none (Or.inl ⟨"not-a-date", rfl, by decide⟩)⟩

/-- C6: a malformed id is rejected by update and delete with the 400
"Invalid id" client error, leaving the store untouched, and this error is
distinct from the 404 "Announcement not found"; a well-formed id matching no
stored record yields the 404 (for update, once its supplied fields
validate and are non-empty). -/
theorem C6_malformed_id_vs_not_found (parse : String → Option Int)
    (teachers : List String) (tu : Option String) (store : List Announcement)
    (hauth : ensure_teacher teachers tu = none) :
    ((⟨400, "Invalid id"⟩ : HTTPError) ≠ ⟨404, "Announcement not found"⟩) ∧
    (∀ id, parseObjectId id = none →
      (∀ title message expiration_date start_date : Option String,
        update_announcement parse teachers id title message expiration_date start_date
          tu store = (store, .error ⟨400, "Invalid id"⟩)) ∧
      delete_announcement teachers id tu store = (store, .error ⟨400, "Invalid id"⟩)) ∧
    (∀ id oid, parseObjectId id = some oid → (∀ a ∈ store, a.oid ≠ oid) →
      delete_announcement teachers id tu store =
        (store, .error ⟨404, "Announcement not found"⟩) ∧
      ∀ title message expiration_date start_date : Option String,
        dateFieldError parse expiration_date start_date = none →
        ¬(title = none ∧ message = none ∧ expiration_date = none ∧ start_date = none) →
        update_announcement parse teachers id title message expiration_date start_date
          tu store = (store, .error ⟨404, "Announcement not found"⟩)) := by
  refine ⟨by simp, ?_, ?_⟩
  · intro id hid
    constructor
    · intro title message expiration_date start_date
      simp [update_announcement, hauth, hid]
    · simp [delete_announcement, hauth, hid]
  · intro id oid hid hmiss
    constructor
    · simp [delete_announcement, hauth, hid, deleteFirst_of_not_mem oid store hmiss]
    · intro title message expiration_date start_date hdf hne
      simp [update_announcement, hauth, hid, hdf, hne,
        updateFirst_of_not_mem oid ⟨title, message, expiration_date, start_date⟩
          store hmiss]

/-- Witness for C6: a malformed id gives "Invalid id", a valid never-created
id gives "Announcement not found". -/
theorem C6_witness :
    ensure_teacher ["mrs_t"] (some "mrs_t") = none ∧
    parseObjectId "not-hex" = none ∧
    delete_announcement ["mrs_t"] "not-hex" (some "mrs_t") [annA] =
      ([annA], .error ⟨400, "Invalid id"⟩) ∧
    parseObjectId demoOid = some demoOid ∧
    delete_announcement ["mrs_t"] demoOid (some "mrs_t") [annA] =
      ([annA], .error ⟨404, "Announcement not found"⟩) :=
  ⟨by decide, by decide,
   ((C6_malformed_id_vs_not_found demoParse ["mrs_t"] (some "mrs_t") [annA]
       (by decide)).2.1 "not-hex" (by decide)).2,
   by decide,
   ((C6_malformed_id_vs_not_found demoParse ["mrs_t"] (some "mrs_t") [annA]
       (by decide)).2.2 demoOid demoOid (by decide) (by decide)).1⟩

theorem setFields_oid (u : UpdateFields) (a : Announcement) :
    (setFields u a).oid = a.oid := rfl

theorem setFields_created_at (u : UpdateFields) (a : Announcement) :
    (setFields u a).created_at = a.created_at := rfl

/-- C7: a successful update rewrites exactly the supplied fields of the first
record matching the id: `_id` and `created_at` (and every unsupplied field)
retain their prior values, every other stored record is untouched, supplied
fields take the supplied values, and the full post-update record is
returned. -/
theorem C7_update_frame (parse : String → Option Int) (teachers : List String)
    (id oid : String) (tu : Option String) (pre post : List Announcement)
    (a : Announcement) (title message expiration_date start_date : Option String)
    (hauth : ensure_teacher teachers tu = none)
    (hid : parseObjectId id = some oid)
    (hp : ∀ b ∈ pre, b.oid ≠ oid) (ha : a.oid = oid)
    (hdf : dateFieldError parse expiration_date start_date = none)
    (hne : ¬(title = none ∧ message = none ∧ expiration_date = none ∧ start_date = none)) :
    update_announcement parse teachers id title message expiration_date start_date tu
        (pre ++ a :: post) =
      (pre ++ setFields ⟨title, message, expiration_date, start_date⟩ a :: post,
       .ok (serialize (setFields ⟨title, message, expiration_date, start_date⟩ a))) ∧
    (setFields ⟨title, message, expiration_date, start_date⟩ a).oid = a.oid ∧
    (setFields ⟨title, message, expiration_date, start_date⟩ a).created_at =
      a.created_at ∧
    (title = none →
      (setFields ⟨title, message, expiration_date, start_date⟩ a).title = a.title) ∧
    (message = none →
      (setFields ⟨title, message, expiration_date, start_date⟩ a).message = a.message) ∧
    (expiration_date = none →
      (setFields ⟨title, message, expiration_date, start_date⟩ a).expiration_date =
        a.expiration_date) ∧
    (start_date = none →
      (setFields ⟨title, message, expiration_date, start_date⟩ a).start_date =
        a.start_date) ∧
    (∀ t, title = some t →
      (setFields ⟨title, message, expiration_date, start_date⟩ a).title = t) ∧
    (∀ m, message = some m →
      (setFields ⟨title, message, expiration_date, start_date⟩ a).message = m) ∧
    (∀ e, expiration_date = some e →
      (setFields ⟨title, message, expiration_date, start_date⟩ a).expiration_date =
        some e) ∧
    (∀ s, start_date = some s →
      (setFields ⟨title, message, expiration_date, start_date⟩ a).start_date =
        some s) := by
  refine ⟨?_, rfl, rfl, ?_, ?_, ?_, ?_, ?_, ?_, ?_, ?_⟩
  · have h1 := updateFirst_append oid ⟨title, message, expiration_date, start_date⟩
      pre post a hp ha
    have h2 := findOne_append oid pre post
      (setFields ⟨title, message, expiration_date, start_date⟩ a) hp
      (by rw [setFields_oid]; exact ha)
    simp [update_announcement, hauth, hid, hdf, hne, h1, h2]
  · intro h; rw [h]; rfl
  · intro h; rw [h]; rfl
  · intro h; rw [h]; rfl
  · intro h; rw [h]; rfl
  · intro t h; rw [h]; rfl
  · intro m h; rw [h]; rfl
  · intro e h; rw [h]; rfl
  · intro s h; rw [h]; rfl

/-- Witness for C7: update the title of a stored record only. -/
theorem C7_witness :
    ensure_teacher ["mrs_t"] (some "mrs_t") = none ∧
    parseObjectId "aaaaaaaaaaaaaaaaaaaaaaaa" = some "aaaaaaaaaaaaaaaaaaaaaaaa" ∧
    annA.oid = "aaaaaaaaaaaaaaaaaaaaaaaa" ∧
    (update_announcement demoParse ["mrs_t"] "aaaaaaaaaaaaaaaaaaaaaaaa"
        (some "New title") none none none (some "mrs_t") ([] ++ annA :: [annB]) =
      ([] ++ setFields ⟨some "New title", none, none, none⟩ annA :: [annB],
       .ok (serialize (setFields ⟨some "New title", none, none, none⟩ annA)))) ∧
    (setFields ⟨some "New title", none, none, none⟩ annA).oid = annA.oid ∧
    (setFields ⟨some "New title", none, none, none⟩ annA).created_at =
      annA.created_at ∧
    (setFields ⟨some "New title", none, none, none⟩ annA).message = annA.message ∧
    (setFields ⟨some "New title", none, none, none⟩ annA).title = "New title" := by
  have h := C7_update_frame demoParse ["mrs_t"] "aaaaaaaaaaaaaaaaaaaaaaaa"
    "aaaaaaaaaaaaaaaaaaaaaaaa" (some "mrs_t") [] [annB] annA
    (some "New title") none none none (by decide) (by decide)
    (by intro b hb; cases hb) (by decide) (by decide) (by decide)
  exact ⟨by decide, by decide, by decide, h.1, h.2.1, h.2.2.1,
    h.2.2.2.2.1 rfl, h.2.2.2.2.2.2.2.1 "New title" rfl⟩

/-- C8: the two read operations are pure functions of the store (and the
reference instant / credential): with no intervening mutation, two calls
return identical sequences. -/
theorem C8_reads_idempotent (parse : String → Option Int) (now : Int)
    (teachers : List String) (tu : Option String) (store : List Announcement) :
    get_active_announcements parse now store = get_active_announcements parse now store ∧
    get_all_announcements teachers tu parse store =
      get_all_announcements teachers tu parse store :=
  ⟨rfl, rfl⟩

/-- Counterexample to C9 as stated: a create request with an empty title is
accepted — no emptiness check exists anywhere on the create or update path —
so a record whose title is the empty string is stored. -/
theorem C9_counterexample :
    create_announcement demoParse ["mrs_t"] "" "msg" "2099-01-01T00:00:00+00:00"
        none (some "mrs_t") "eeeeeeeeeeeeeeeeeeeeeeee"
        "2024-06-01T00:00:00+00:00" [] =
      ([{ oid := "eeeeeeeeeeeeeeeeeeeeeeee", title := "", message := "msg",
          start_date := none, expiration_date := some "2099-01-01T00:00:00+00:00",
          created_at := "2024-06-01T00:00:00+00:00" }],
       .ok { title := "", message := "msg", start_date := none,
             expiration_date := some "2099-01-01T00:00:00+00:00",
             created_at := "2024-06-01T00:00:00+00:00",
             id := "eeeeeeeeeeeeeeeeeeeeeeee" }) ∧
    ({ oid := "eeeeeeeeeeeeeeeeeeeeeeee", title := "", message := "msg",
       start_date := none, expiration_date := some "2099-01-01T00:00:00+00:00",
       created_at := "2024-06-01T00:00:00+00:00" } : Announcement).title = "" := by
  constructor
  · decide
  · rfl

/-- C9 amended: neither create nor update validates titles for non-emptiness;
the title is stored exactly as supplied, so a record's title is empty exactly
when an empty title was supplied.  A create whose dates pass validation
appends the document with the supplied title verbatim, and an update that
supplies a title sets exactly that title. -/
theorem C9_title_stored_verbatim (parse : String → Option Int)
    (teachers : List String) (title message expiration_date : String)
    (start_date : Option String) (tu : Option String) (newId nowIso : String)
    (store : List Announcement)
    (hauth : ensure_teacher teachers tu = none)
    (hexp : expiration_date ≠ "") (hpe : (parse expiration_date).isSome = true)
    (hstart : ∀ s, start_date = some s → s ≠ "" → (parse s).isSome = true) :
    create_announcement parse teachers title message expiration_date start_date tu
        newId nowIso store =
      (store ++ [{ oid := newId, title := title, message := message,
                   start_date := start_date,
                   expiration_date := some expiration_date,
                   created_at := nowIso }],
       .ok { title := title, message := message, start_date := start_date,
             expiration_date := some expiration_date, created_at := nowIso,
             id := newId }) ∧
    ∀ (u : UpdateFields) (a : Announcement) (t : String),
      u.title = some t → (setFields u a).title = t := by
  constructor
  · obtain ⟨v, hv⟩ := Option.isSome_iff_exists.mp hpe
    cases start_date with
    | none => simp [create_announcement, hauth, hexp, hv, serialize]
    | some s =>
      by_cases hse : s = ""
      · simp [create_announcement, hauth, hexp, hv, hse, serialize]
      · obtain ⟨w, hw⟩ := Option.isSome_iff_exists.mp (hstart s rfl hse)
        simp [create_announcement, hauth, hexp, hv, hse, hw, serialize]
  · intro u a t h
    simp [setFields, h]

/-- Witness for the amended C9: creating with an empty title stores the empty
title verbatim. -/
theorem C9_witness :
    ensure_teacher ["mrs_t"] (some "mrs_t") = none ∧
    ("2099-01-01T00:00:00+00:00" : String) ≠ "" ∧
    (demoParse "2099-01-01T00:00:00+00:00").isSome = true ∧
    (create_announcement demoParse ["mrs_t"] "" "msg" "2099-01-01T00:00:00+00:00"
        none (some "mrs_t") "eeeeeeeeeeeeeeeeeeeeeeee"
        "2024-06-01T00:00:00+00:00" [] =
      ([{ oid := "eeeeeeeeeeeeeeeeeeeeeeee", title := "", message := "msg",
          start_date := none, expiration_date := some "2099-01-01T00:00:00+00:00",
          created_at := "2024-06-01T00:00:00+00:00" }],
       .ok { title := "", message := "msg", start_date := none,
             expiration_date := some "2099-01-01T00:00:00+00:00",
             created_at := "2024-06-01T00:00:00+00:00",
             id := "eeeeeeeeeeeeeeeeeeeeeeee" }) ∧
     ∀ (u : UpdateFields) (a : Announcement) (t : String),
       u.title = some t → (setFields u a).title = t) :=
  ⟨by decide, by decide, by decide,
   C9_title_stored_verbatim demoParse ["mrs_t"] "" "msg"
     "2099-01-01T00:00:00+00:00" none (some "mrs_t") "eeeeeeeeeeeeeeeeeeeeeeee"
     "2024-06-01T00:00:00+00:00" [] (by decide) (by decide) (by decide)
     (fun s hs => nomatch hs)⟩

/-- C10: in update, supplied-field validation precedes the existence check:
for a well-formed id that matches no stored record, a malformed supplied date
is reported with its 400 validation error and an empty field set with 400
"No fields to update", while 404 "Announcement not found" arises exactly when
every supplied field validates and at least one field was supplied. -/
theorem C10_validation_before_existence (parse : String → Option Int)
    (teachers : List String) (id oid : String) (tu : Option String)
    (store : List Announcement)
    (hauth : ensure_teacher teachers tu = none)
    (hid : parseObjectId id = some oid)
    (hmiss : ∀ a ∈ store, a.oid ≠ oid) :
    (∀ (title message expiration_date start_date : Option String) (err : HTTPError),
      dateFieldError parse expiration_date start_date = some err →
      update_announcement parse teachers id title message expiration_date start_date
        tu store = (store, .error err)) ∧
    (update_announcement parse teachers id none none none none tu store =
      (store, .error ⟨400, "No fields to update"⟩)) ∧
    (∀ title message expiration_date start_date : Option String,
      dateFieldError parse expiration_date start_date = none →
      ¬(title = none ∧ message = none ∧ expiration_date = none ∧ start_date = none) →
      update_announcement parse teachers id title message expiration_date start_date
        tu store = (store, .error ⟨404, "Announcement not found"⟩)) := by
  refine ⟨?_, ?_, ?_⟩
  · intro title message expiration_date start_date err hdf
    simp [update_announcement, hauth, hid, hdf]
  · simp [update_announcement, hauth, hid, dateFieldError]
  · intro title message expiration_date start_date hdf hne
    simp [update_announcement, hauth, hid, hdf, hne,
      updateFirst_of_not_mem oid ⟨title, message, expiration_date, start_date⟩
        store hmiss]

/-- Witness for C10 on an empty store: the malformed date wins over the
missing record; the missing record is only reported once fields validate. -/
theorem C10_witness :
    ensure_teacher ["mrs_t"] (some "mrs_t") = none ∧
    parseObjectId demoOid = some demoOid ∧
    (∀ a ∈ ([] : List Announcement), a.oid ≠ demoOid) ∧
    dateFieldError demoParse (some "not-a-date") none =
      some ⟨400, "Invalid expiration_date format"⟩ ∧
    update_announcement demoParse ["mrs_t"] demoOid none none (some "not-a-date")
      none (some "mrs_t") [] = ([], .error ⟨400, "Invalid expiration_date format"⟩) ∧
    update_announcement demoParse ["mrs_t"] demoOid (some "T") none none none
      (some "mrs_t") [] = ([], .error ⟨404, "Announcement not found"⟩) :=
  ⟨by decide, by decide, by decide, by decide,
   (C10_validation_before_existence demoParse ["mrs_t"] demoOid demoOid
      (some "mrs_t") [] (by decide) (by decide) (by decide)).1 none none
      (some "not-a-date") none ⟨400, "Invalid expiration_date format"⟩ (by decide),
   (C10_validation_before_existence demoParse ["mrs_t"] demoOid demoOid
      (some "mrs_t") [] (by decide) (by decide) (by decide)).2.2 (some "T") none
      none none (by decide) (by simp)⟩

/-- C1 (code bug): a store holding a record whose expiration date is the
date-only ISO form "2099-01-01" — a format the create endpoint accepts and
its own error message recommends — parses offset-naive, and the comparison
`exp_dt >= now` against the offset-aware `now` raises an uncaught TypeError:
the public listing aborts with a 500 and includes nothing, although `annA`
in the same store satisfies the claim's inclusion condition (aware expiration
2099-01-01T00:00:00+00:00, instant 4070908800 ≥ now's 1717200000, no start
date). -/
theorem C1_code_bug_eval :
    get_active_announcements_py demoParsePy demoNow [annNaive, annA] =
      .error typeErrorResponse ∧
    demoParsePy "2099-01-01" = some ⟨false, 4070908800⟩ ∧
    annA.expiration_date = some "2099-01-01T00:00:00+00:00" ∧
    demoParsePy "2099-01-01T00:00:00+00:00" = some ⟨true, 4070908800⟩ ∧
    annA.start_date = none ∧
    demoNow = ⟨true, 1717200000⟩ ∧ (1717200000 : Int) ≤ 4070908800 := by
  refine ⟨by decide, rfl, rfl, rfl, rfl, rfl, by decide⟩

/-- C2 (code bug): one malformed record next to one offset-aware expiration
aborts the management listing: `annBad`'s key is the offset-naive
`datetime.max` sentinel, `annA`'s key is offset-aware, and `tmp.sort` raises
an uncaught TypeError on their comparison, so the endpoint fails with a 500
instead of sorting the corrupt record last.  Moreover the sentinel is not
strictly above valid keys: "9999-12-31T23:59:59.999999" parses to exactly
`datetime.max`. -/
theorem C2_code_bug_eval :
    get_all_announcements_py ["mrs_t"] (some "mrs_t") demoParsePy [annBad, annA] =
      .error typeErrorResponse ∧
    expKeyAllPy demoParsePy annBad = pyDatetimeMax ∧
    pyDatetimeMax.aware = false ∧
    (expKeyAllPy demoParsePy annA).aware = true ∧
    demoParsePy "9999-12-31T23:59:59.999999" = some pyDatetimeMax := by
  refine ⟨by decide, rfl, rfl, rfl, rfl⟩

/-- C3 (code bug): the sortedness/stability claim cannot hold of every store:
with `annA` and `annB` (both active, equal offset-aware expirations, inserted
A then B) stored alongside a record whose date-only expiration parses
offset-naive, the filter comparison raises an uncaught TypeError and the
public listing aborts with a 500, producing no sequence in which A and B
could appear at all. -/
theorem C3_code_bug_eval :
    get_active_announcements_py demoParsePy demoNow [annA, annB, annNaive] =
      .error typeErrorResponse ∧
    activeKeyPy demoNow (parseIfTruthyPy demoParsePy annA.expiration_date)
      (parseIfTruthyPy demoParsePy annA.start_date) = .ok (some ⟨true, 4070908800⟩) ∧
    activeKeyPy demoNow (parseIfTruthyPy demoParsePy annB.expiration_date)
      (parseIfTruthyPy demoParsePy annB.start_date) = .ok (some ⟨true, 4070908800⟩) := by
  refine ⟨by decide, by decide, by decide⟩

end Announcements
